import Mathlib

/-!
Verification development for the GptOss20BAgent repository.

The Python sources are embedded shallowly:
  * text is `List Char` (with `String` wrappers where the code passes `str`);
  * `AIAgent.clean_response` (src/src/agent.py, lines 29-63) is embedded as
    `clean_response`, with one executable function per `re.sub` call;
  * the scraper truncation (src/src/scraper.py, lines 110-134) is embedded as
    `clean_lines` and `truncate_content`;
  * `AIAgent.chat` (src/src/agent.py, lines 119-218) is embedded as `chatRun`,
    modelling Python generator semantics explicitly (the body of `chat`
    contains `yield`, so a call returns a generator object; values passed to
    `return` inside it surface only as the `StopIteration` payload);
  * `SearchEngine.search` (src/src/search.py) and the Gradio handler
    `search_and_process` (src/src/ui.py) are embedded with the DuckDuckGo
    backend and the llama generation capability as explicit parameters.

Scanning loops (`re.sub` passes) are written with an explicit step budget
(`fuel`) so that they are structurally recursive and kernel-reducible.  Every
loop advances its scan position by at least one character per step, so a
budget equal to the text length is always sufficient; running out of budget
returns the unscanned remainder unchanged.
-/

/-- The apostrophe character (U+0027), built from its code point. -/
def apos : Char := Char.ofNat 39

/-- Python `str.strip` / regex `\s` whitespace, restricted to the ASCII
whitespace characters (the only ones the embedded texts use). -/
def isPySpace (c : Char) : Bool :=
  c = ' ' || c = '\t' || c = '\n' || c = '\r' || c = Char.ofNat 11 || c = Char.ofNat 12

/-- ASCII `[A-Z]`, as used in the reasoning-pattern lookaheads. -/
def isUpperAscii (c : Char) : Bool :=
  'A' ≤ c && c ≤ 'Z'

/-- Python `str.lstrip()`: drop leading whitespace. -/
def pyLstrip (l : List Char) : List Char :=
  l.dropWhile isPySpace

/-- Python `str.rstrip()`: drop trailing whitespace. -/
def pyRstrip (l : List Char) : List Char :=
  (l.reverse.dropWhile isPySpace).reverse

/-- Python `str.strip()`: drop leading and trailing whitespace. -/
def pyStrip (l : List Char) : List Char :=
  pyLstrip (pyRstrip l)

/-- `pyStrip` on `String`. -/
def pyStripStr (s : String) : String :=
  String.mk (pyStrip s.data)

/-- Attempt to match the tail `[^|]+\|>` of the special-token regex
`<\|[^|]+\|>` (src/src/agent.py line 43) at the head of `l`: a nonempty run
of non-`|` characters followed by `|>`.  Returns the rest of the text after
the match.  Because `[^|]+` cannot contain `|`, greedy matching with
backtracking succeeds exactly on this shape. -/
def munch (l : List Char) : Option (List Char) :=
  let run := l.takeWhile (fun c => c ≠ '|')
  if run.isEmpty then none
  else if (l.drop run.length).take 2 = ['|', '>'] then some (l.drop (run.length + 2))
  else none

/-- One pass of `re.sub(r'<\|[^|]+\|>', '', text)`: leftmost, non-overlapping
matches are removed; on a failed match attempt the scan advances one
character.  `fuel` bounds the number of steps; each step consumes at least
one input character, so `l.length` fuel is always enough. -/
def stripTokensF : Nat → List Char → List Char
  | 0, l => l
  | _, [] => []
  | fuel + 1, '<' :: '|' :: rest =>
    match munch rest with
    | some rest' => stripTokensF fuel rest'
    | none => '<' :: stripTokensF fuel ('|' :: rest)
  | fuel + 1, c :: rest => c :: stripTokensF fuel rest

/-- `re.sub(r'<\|[^|]+\|>', '', text)` (src/src/agent.py line 43). -/
def stripTokens (l : List Char) : List Char :=
  stripTokensF l.length l

/-- First index `i` with `s ≤ i < s + fuel` satisfying `P`. -/
def findIdxFuel (P : Nat → Bool) : Nat → Nat → Option Nat
  | _, 0 => none
  | s, fuel + 1 => if P s then some s else findIdxFuel P (s + 1) fuel

/-- First index `i` with `s ≤ i < len` satisfying `P` (regex scan position
search over a text of length `len`). -/
def findIdxFrom (P : Nat → Bool) (len s : Nat) : Option Nat :=
  findIdxFuel P s (len - s)

/-- `re.MULTILINE` semantics of `^` at index `i` of text `l`: start of text
or just after a newline. -/
def lineStart (l : List Char) (i : Nat) : Bool :=
  i = 0 || l[i - 1]? = some '\n'

/-- Does `needle` occur in `l` starting at index `j`? -/
def needleAt (l needle : List Char) (j : Nat) : Bool :=
  needle.isPrefixOf (l.drop j)

/-- The lookahead `(?=\n[A-Z]|\n#)` of the reasoning patterns at index `k`. -/
def boundaryAt (l : List Char) (k : Nat) : Bool :=
  l[k]? = some '\n' &&
    (match l[k + 1]? with
     | some c => isUpperAscii c || c = '#'
     | none => false)

/-- A newline at index `k` (the consumed terminator of pattern 5). -/
def nlAt (l : List Char) (k : Nat) : Bool :=
  l[k]? = some '\n'

/-- Scan loop of `re.sub(r'^.*?NEEDLE.*?(?=\n[A-Z]|\n#)', '', text,
flags=re.DOTALL | re.MULTILINE)` (src/src/agent.py lines 48-51, 57), for a
nonempty `needle`.  At scan position `p`, the leftmost match starts at the
first `^`-position `i0 ≥ p` (under `DOTALL`, `.*?` then reaches forward across
lines); lazy matching picks the first occurrence `j ≥ i0` of the needle and
ends at the first lookahead boundary `k ≥ j + |needle|`, which is not
consumed; if any of the three searches fails, no match exists anywhere at or
after `p` and scanning stops.  Indices `[i0, k)` are deleted and the scan
resumes at `k`.  One fuel unit per match; each match moves `p` forward by at
least one character. -/
def metaSubGo (needle l : List Char) : Nat → Nat → List Char
  | 0, p => l.drop p
  | fuel + 1, p =>
    match findIdxFrom (lineStart l) l.length p with
    | none => l.drop p
    | some i0 =>
      match findIdxFrom (needleAt l needle) l.length i0 with
      | none => l.drop p
      | some j =>
        match findIdxFrom (boundaryAt l) l.length (j + needle.length) with
        | none => l.drop p
        | some k => (l.drop p).take (i0 - p) ++ metaSubGo needle l fuel k

/-- `re.sub(r'^.*?NEEDLE.*?(?=\n[A-Z]|\n#)', '', text, flags=DOTALL|MULTILINE)`
for reasoning patterns 1-4 of `clean_response`. -/
def metaSub (needle l : List Char) : List Char :=
  metaSubGo needle l l.length 0

/-- Scan loop of `re.sub(r'^.*?We\'ll comply\..*?\n', '', text,
flags=DOTALL|MULTILINE)` (pattern 5): like `metaSubGo`, but the span ends at
the first newline at `k ≥ j + |needle|`, and that newline is consumed, so the
scan resumes at `k + 1`. -/
def complySubGo (needle l : List Char) : Nat → Nat → List Char
  | 0, p => l.drop p
  | fuel + 1, p =>
    match findIdxFrom (lineStart l) l.length p with
    | none => l.drop p
    | some i0 =>
      match findIdxFrom (needleAt l needle) l.length i0 with
      | none => l.drop p
      | some j =>
        match findIdxFrom (nlAt l) l.length (j + needle.length) with
        | none => l.drop p
        | some k => (l.drop p).take (i0 - p) ++ complySubGo needle l fuel (k + 1)

/-- Pattern 5 of `clean_response`, with its needle fixed below. -/
def complySub (needle l : List Char) : List Char :=
  complySubGo needle l l.length 0

/-- Match of pattern 6, `^\.\.\.\?\s*\n`, at index `i` (the `^` test is done
by the caller): requires the literal `...?`, then greedy `\s*` followed by a
backtracked `\n`, i.e. the match ends after the last newline inside the
maximal whitespace run following `...?`.  Returns the index of that
newline. -/
def dotsAt (l : List Char) (i : Nat) : Option Nat :=
  if ("...?").data.isPrefixOf (l.drop i) then
    let ws := (l.drop (i + 4)).takeWhile isPySpace
    match List.findIdx? (fun c => c = '\n') ws.reverse with
    | none => none
    | some r => some (i + 4 + (ws.length - 1 - r))
  else none

/-- Scan loop of `re.sub(r'^\.\.\.\?\s*\n', '', text, flags=DOTALL|MULTILINE)`
(pattern 6): the leftmost match starts at the first `^`-position where
`dotsAt` succeeds; the span up to and including the matched newline at `q` is
deleted and the scan resumes at `q + 1`. -/
def dotsSubGo (l : List Char) : Nat → Nat → List Char
  | 0, p => l.drop p
  | fuel + 1, p =>
    match findIdxFrom (fun i => lineStart l i && (dotsAt l i).isSome) l.length p with
    | none => l.drop p
    | some i =>
      match dotsAt l i with
      | none => l.drop p
      | some q => (l.drop p).take (i - p) ++ dotsSubGo l fuel (q + 1)

/-- Pattern 6 of `clean_response`. -/
def dotsSub (l : List Char) : List Char :=
  dotsSubGo l l.length 0

/-- `re.sub(r'\n{3,}', '\n\n', text)` (src/src/agent.py line 60): each maximal
run of three or more newlines is replaced by exactly two. -/
def collapseF : Nat → List Char → List Char
  | 0, l => l
  | _, [] => []
  | fuel + 1, '\n' :: '\n' :: '\n' :: rest =>
    '\n' :: '\n' :: collapseF fuel (rest.dropWhile (fun c => c = '\n'))
  | fuel + 1, c :: rest => c :: collapseF fuel rest

/-- Newline-run collapsing step of `clean_response`. -/
def collapseNewlines (l : List Char) : List Char :=
  collapseF l.length l

/-- Needle of reasoning pattern 1: `We have a conversation:`. -/
def needle1 : List Char := ("We have a conversation:").data

/-- Needle of reasoning pattern 2: `The answer should`. -/
def needle2 : List Char := ("The answer should").data

/-- Needle of reasoning pattern 3: `We need to`. -/
def needle3 : List Char := ("We need to").data

/-- Needle of reasoning pattern 4: `We should`. -/
def needle4 : List Char := ("We should").data

/-- Needle of reasoning pattern 5 (with an apostrophe). -/
def needle5 : List Char := ("We").data ++ [apos] ++ ("ll comply.").data

/-- `AIAgent.clean_response` (src/src/agent.py lines 29-63): empty text is
returned as-is (`if not text: return text`); otherwise special tokens are
removed, the six reasoning patterns are applied in order, newline runs are
collapsed and the result is stripped. -/
def clean_response (l : List Char) : List Char :=
  if l.isEmpty then l
  else
    pyStrip (collapseNewlines (dotsSub (complySub needle5
      (metaSub needle4 (metaSub needle3 (metaSub needle2 (metaSub needle1
        (stripTokens l))))))))

/-- `clean_response` on `String`. -/
def cleanResponseStr (s : String) : String :=
  String.mk (clean_response s.data)

/-- A control marker of the bracketed-tag form `<|...|>` (a nonempty,
`|`-free tag between the delimiters) occurs at the head of `l`.  Modelled
from the spec wording for the marker syntax; `munch` is exactly the tail of
that shape. -/
def markerHead (l : List Char) : Bool :=
  match l with
  | '<' :: '|' :: rest => (munch rest).isSome
  | _ => false

/-- Some control marker `<|...|>` occurs somewhere in `l`. -/
def containsMarker (l : List Char) : Bool :=
  match l with
  | [] => false
  | _ :: rest => markerHead l || containsMarker rest

/-! ## Scraper content truncation (src/src/scraper.py, src/config.py) -/

/-- `SCRAPER_CONFIG["max_content_length"]` (src/config.py line 61). -/
def max_content_length : Nat := 5000

/-- `SCRAPER_CONFIG["head_chars"]` (src/config.py line 62). -/
def head_chars : Nat := 3000

/-- `SCRAPER_CONFIG["tail_chars"]` (src/config.py line 63). -/
def tail_chars : Nat := 2000

/-- The truncation separator f-string of `WebScraper._extract_content`
(src/src/scraper.py line 131). -/
def separatorFor (hc tc : Nat) : String :=
  "\n\n... [Content truncated - showing first " ++ toString hc ++
    " and last " ++ toString tc ++ " chars] ...\n\n"

/-- Split text at newline characters (Python `text.split("\n")`). -/
def splitNl : List Char → List (List Char)
  | [] => [[]]
  | '\n' :: rest => [] :: splitNl rest
  | c :: rest =>
    match splitNl rest with
    | [] => [[c]]
    | h :: t => (c :: h) :: t

/-- The whitespace clean-up of `WebScraper._extract_content`
(src/src/scraper.py lines 111-112): strip every line, keep the nonempty
ones, and rejoin with newlines. -/
def clean_lines (l : List Char) : List Char :=
  List.intercalate ['\n'] (((splitNl l).map pyStrip).filter (fun s => ! s.isEmpty))

/-- The head+tail truncation of `WebScraper._extract_content`
(src/src/scraper.py lines 114-134), applied to the cleaned text.  With the
configured values, `head_chars + tail_chars > max_content_length` is false,
so the re-derivation branch (whose Python `int(max_length * 0.6)` equals
`max_length * 6 / 10 = 3000` for `max_length = 5000`) is not taken.  The
Python tail slice `cleaned[-tail_chars:]` is `drop (length - tail_chars)`;
the two agree whenever `tail_chars > 0`, which holds for every value this
code computes. -/
def truncate_content (cleaned : List Char) : List Char :=
  if max_content_length < cleaned.length then
    let hc := if max_content_length < head_chars + tail_chars
      then max_content_length * 6 / 10 else head_chars
    let tc := if max_content_length < head_chars + tail_chars
      then max_content_length - max_content_length * 6 / 10 else tail_chars
    let head := pyRstrip (cleaned.take hc)
    let tail := pyLstrip (cleaned.drop (cleaned.length - tc))
    head ++ (separatorFor hc tc).data ++ tail
  else cleaned

/-! ## Agent state and `AIAgent.chat` (src/src/agent.py) -/

/-- A conversation role (`msg["role"]` in src/src/agent.py). -/
inductive Role where
  | user : Role
  | assistant : Role
deriving DecidableEq

/-- One history entry, `{"role": ..., "content": ...}`. -/
structure Turn where
  role : Role
  content : String
deriving DecidableEq

/-- The mutable fields of `AIAgent` (src/src/agent.py lines 23-27): whether
`self.llm` is loaded, `self.conversation_history`, and `self.current_mode`. -/
structure AgentState where
  llmLoaded : Bool
  conversation_history : List Turn
  current_mode : String
deriving DecidableEq

/-- `AIAgent.__init__` (src/src/agent.py lines 23-27). -/
def initAgent : AgentState :=
  { llmLoaded := false, conversation_history := [], current_mode := "conversation" }

/-- `config.SYSTEM_PROMPTS` (src/config.py lines 73-83). -/
def SYSTEM_PROMPTS : List (String × String) :=
  [("conversation",
      "You are a helpful AI assistant. Provide clear, accurate, and concise responses."),
   ("search",
      "You are a search assistant. Analyze the search results and provide a comprehensive summary."),
   ("scrape",
      "You are a data extraction assistant. Extract and present the relevant information clearly.")]

/-- `AIAgent.set_mode` (src/src/agent.py lines 99-108): the mode is changed
only when it is a key of `SYSTEM_PROMPTS`; otherwise only a message is
printed and the state is unchanged. -/
def set_mode (st : AgentState) (mode : String) : AgentState :=
  if (SYSTEM_PROMPTS.lookup mode).isSome then { st with current_mode := mode } else st

/-- `AIAgent.get_system_prompt` (src/src/agent.py lines 110-112):
`SYSTEM_PROMPTS.get(self.current_mode, "")`. -/
def get_system_prompt (st : AgentState) : String :=
  (SYSTEM_PROMPTS.lookup st.current_mode).getD ""

/-- One line of the prompt for one history message (src/src/agent.py
lines 141-147). -/
def turnLine (t : Turn) : String :=
  match t.role with
  | Role.user => "User: " ++ t.content ++ "\n"
  | Role.assistant => "Assistant: " ++ t.content ++ "\n"

/-- The prompt built by `AIAgent.chat` (src/src/agent.py lines 137-150): the
last six history messages, then the current user message and an open
assistant tag.  (The fetched system prompt is never added to the prompt.) -/
def buildPrompt (history : List Turn) (msg : String) : String :=
  String.join ((history.drop (history.length - 6)).map turnLine) ++
    "User: " ++ msg ++ "\nAssistant:"

/-- The generation capability (the `self.llm(...)` call): for a prompt, the
chunks it streams, and — if it raises mid-stream — the exception message,
raised after those chunks.  In the non-streaming call the full text is the
concatenation of the chunks, and the same exception, if any, is raised
before anything is returned. -/
structure GenBehavior where
  chunks : String → List String
  failure : String → Option String

/-- Result of driving a call of the generator function `AIAgent.chat` to
completion.  `chat`'s body contains `yield`, so in Python *any* call to it
(with either `stream` value) returns a generator object; `yielded` lists the
values the generator yields, and `stopValue` is the `StopIteration` payload
produced by a `return expr` inside the body (invisible to a plain `for`
loop).  `llmCalled` records whether `self.llm` was invoked. -/
structure ChatOutcome where
  yielded : List String
  stopValue : Option String
  llmCalled : Bool
  finalState : AgentState
deriving DecidableEq

/-- `AIAgent.chat` (src/src/agent.py lines 119-218), as the result of running
the returned generator to exhaustion.  The user turn is appended *before*
the `try:` block; on success the cleaned response is appended as an
assistant turn; on a generation exception the handler yields (streaming) or
returns (non-streaming) a single error message and appends nothing
further. -/
def chatRun (g : GenBehavior) (st : AgentState) (msg : String) (stream : Bool) :
    ChatOutcome :=
  if ¬ st.llmLoaded then
    { yielded := ["Error: Model not loaded. Please load the model first."],
      stopValue := none, llmCalled := false, finalState := st }
  else
    let prompt := buildPrompt st.conversation_history msg
    let st1 := { st with
      conversation_history := st.conversation_history ++ [⟨Role.user, msg⟩] }
    if stream then
      match g.failure prompt with
      | some e =>
        { yielded := g.chunks prompt ++ ["Error generating response: " ++ e],
          stopValue := none, llmCalled := true, finalState := st1 }
      | none =>
        let cleaned := cleanResponseStr (String.join (g.chunks prompt))
        { yielded := g.chunks prompt, stopValue := none, llmCalled := true,
          finalState := { st1 with conversation_history :=
            st1.conversation_history ++ [⟨Role.assistant, cleaned⟩] } }
    else
      match g.failure prompt with
      | some e =>
        { yielded := [], stopValue := some ("Error generating response: " ++ e),
          llmCalled := true, finalState := st1 }
      | none =>
        let cleaned := cleanResponseStr (String.join (g.chunks prompt))
        { yielded := [], stopValue := some cleaned, llmCalled := true,
          finalState := { st1 with conversation_history :=
            st1.conversation_history ++ [⟨Role.assistant, cleaned⟩] } }

/-- Run a sequence of streaming `chat` calls, keeping the final state. -/
def runChats (g : GenBehavior) (st : AgentState) (msgs : List String) : AgentState :=
  msgs.foldl (fun s m => (chatRun g s m true).finalState) st

/-- `AIAgent.chat_with_context` (src/src/agent.py lines 220-236): the context
is merged into the user message and `chat` is called. -/
def chat_with_context (g : GenBehavior) (st : AgentState)
    (msg context : String) (stream : Bool) : ChatOutcome :=
  chatRun g st (msg ++ "\n\n**Context:**\n" ++ context) stream

/-! ## Search adapter and search session (src/src/search.py, src/src/ui.py) -/

/-- One DuckDuckGo result record. -/
structure SearchResult where
  title : String
  href : String
  body : String
deriving DecidableEq

/-- `SearchEngine.search` (src/src/search.py lines 18-56), with the DDGS
backend as an explicit capability (`Except.error` = backend exception).
The empty-query guard `not query or not query.strip()` runs before the
backend is touched. -/
def SearchEngine_search (backend : String → Except String (List SearchResult))
    (query : String) : Except String (List SearchResult) :=
  if query.isEmpty || (pyStripStr query).isEmpty then
    Except.error "Search query cannot be empty"
  else
    match backend query with
    | Except.error e => Except.error ("Search error: " ++ e)
    | Except.ok [] => Except.error "No results found"
    | Except.ok results => Except.ok results

/-- One block of `SearchEngine.format_results` (src/src/search.py
lines 71-81). -/
def formatOneResult (idx : Nat) (r : SearchResult) : List String :=
  ["**Result " ++ toString idx ++ ":**",
   "Title: " ++ r.title,
   "URL: " ++ r.href,
   "Description: " ++ r.body,
   ""]

/-- `SearchEngine.format_results` (src/src/search.py lines 58-83). -/
def format_results (results : List SearchResult) : String :=
  if results.isEmpty then "No results to format"
  else
    String.intercalate "\n"
      ((List.enumFrom 1 results).map (fun p => formatOneResult p.1 p.2)).flatten

/-- `SearchEngine.search_and_format` (src/src/search.py lines 85-102). -/
def search_and_format (backend : String → Except String (List SearchResult))
    (query : String) : Bool × String :=
  match SearchEngine_search backend query with
  | Except.error e => (false, e)
  | Except.ok results => (true, format_results results)

/-- Result of driving the Gradio handler `search_and_process` (src/src/ui.py
lines 35-65) to completion.  The handler is itself a generator function, so
its early `return msg` statements surface only as `stopValue`. -/
structure SessionOutcome where
  yielded : List String
  stopValue : Option String
  genCalled : Bool
  finalState : AgentState
deriving DecidableEq

/-- The cumulative `response` values yielded by the handler's chunk loop
(src/src/ui.py lines 58-65): each chunk is appended to the running response
and the running response is yielded. -/
def accumYields (acc : String) : List String → List String
  | [] => []
  | c :: cs => (acc ++ c) :: accumYields (acc ++ c) cs

/-- `search_and_process` (src/src/ui.py lines 35-65): guard on model
readiness, guard on an empty (stripped) query, run the search capability,
and only on search success switch the agent to search mode and stream a
`chat_with_context` call over the formatted results.  `genCalled` records
whether the generation capability was invoked anywhere in the flow. -/
def search_and_process (g : GenBehavior)
    (backend : String → Except String (List SearchResult))
    (st : AgentState) (query : String) : SessionOutcome :=
  if ¬ st.llmLoaded then
    { yielded := [],
      stopValue := some "Error: Model not loaded. Please restart the application.",
      genCalled := false, finalState := st }
  else if (pyStripStr query).isEmpty then
    { yielded := [], stopValue := some "Please enter a search query.",
      genCalled := false, finalState := st }
  else
    match search_and_format backend query with
    | (false, results) =>
      { yielded := ["Searching DuckDuckGo...", "Search failed: " ++ results],
        stopValue := some "", genCalled := false, finalState := st }
    | (true, results) =>
      let st1 := set_mode st "search"
      let context := "Search Query: " ++ query ++ "\n\nSearch Results:\n" ++ results
      let userMsg := "Please analyze these search results for the query: " ++
        String.mk [apos] ++ query ++ String.mk [apos]
      let out := chat_with_context g st1 userMsg context true
      { yielded := ["Searching DuckDuckGo...", "Processing search results with AI..."] ++
          accumYields "Processing search results with AI...\n\n" out.yielded,
        stopValue := none, genCalled := out.llmCalled, finalState := out.finalState }

/-! ## Helper lemmas -/

theorem findIdxFuel_le {P : Nat → Bool} :
    ∀ fuel s i, findIdxFuel P s fuel = some i → s ≤ i := by
  intro fuel
  induction fuel with
  | zero => intro s i h; simp [findIdxFuel] at h
  | succ n ih =>
    intro s i h
    simp only [findIdxFuel] at h
    by_cases hp : P s
    · simp [hp] at h; omega
    · simp [hp] at h
      have := ih (s + 1) i h
      omega

theorem findIdxFrom_le {P : Nat → Bool} {len s i : Nat}
    (h : findIdxFrom P len s = some i) : s ≤ i :=
  findIdxFuel_le _ _ _ h


open scoped List

theorem munch_eq_drop {l r : List Char} (h : munch l = some r) :
    r = l.drop ((l.takeWhile (fun c => c ≠ '|')).length + 2) := by
  simp only [munch] at h
  split at h
  · exact absurd h (by simp)
  · split at h
    · simpa using h.symm
    · exact absurd h (by simp)

theorem munch_sublist {l r : List Char} (h : munch l = some r) : r <+ l := by
  rw [munch_eq_drop h]
  exact List.drop_sublist _ l

theorem stripTokensF_sublist : ∀ (fuel : Nat) (l : List Char), stripTokensF fuel l <+ l := by
  intro fuel l
  induction fuel, l using stripTokensF.induct with
  | case1 l => simp [stripTokensF]
  | case2 fuel => simp [stripTokensF]
  | case3 fuel rest rest' hm ih =>
    rw [stripTokensF, hm]
    exact (((ih.trans (munch_sublist hm)).cons '|').cons '<')
  | case4 fuel rest hm ih =>
    rw [stripTokensF, hm]
    exact ih.cons_cons '<'
  | case5 fuel c rest h1 ih =>
    rw [stripTokensF]
    · exact ih.cons_cons c
    · exact h1

theorem drop_sublist_drop {α : Type} {l : List α} {a b : Nat} (h : a ≤ b) :
    List.Sublist (l.drop b) (l.drop a) := by
  have hd : l.drop b = (l.drop a).drop (b - a) := by
    rw [List.drop_drop]
    congr 1
    omega
  rw [hd]
  exact List.drop_sublist _ _

theorem metaSubGo_sublist (needle l : List Char) :
    ∀ (fuel p : Nat), List.Sublist (metaSubGo needle l fuel p) (l.drop p) := by
  intro fuel p
  induction fuel, p using metaSubGo.induct needle l with
  | case1 p => simp [metaSubGo]
  | case2 fuel p h1 => simp only [metaSubGo, h1]; exact List.Sublist.refl _
  | case3 fuel p i0 h1 h2 => simp only [metaSubGo, h1, h2]; exact List.Sublist.refl _
  | case4 fuel p i0 h1 j h2 h3 =>
    simp only [metaSubGo, h1, h2, h3]
    exact List.Sublist.refl _
  | case5 fuel p i0 h1 j h2 k h3 ih =>
    simp only [metaSubGo, h1, h2, h3]
    have hp : p ≤ i0 := findIdxFrom_le h1
    have hij : i0 ≤ j := findIdxFrom_le h2
    have hjk : j + needle.length ≤ k := findIdxFrom_le h3
    have hik : i0 ≤ k := le_trans hij (le_trans (Nat.le_add_right _ _) hjk)
    have hmain : List.Sublist (metaSubGo needle l fuel k) ((l.drop p).drop (i0 - p)) := by
      rw [List.drop_drop]
      rw [show p + (i0 - p) = i0 by omega]
      exact ih.trans (drop_sublist_drop hik)
    have happ := hmain.append_left ((l.drop p).take (i0 - p))
    rw [List.take_append_drop] at happ
    exact happ

theorem metaSub_sublist (needle l : List Char) : List.Sublist (metaSub needle l) l := by
  have h := metaSubGo_sublist needle l l.length 0
  simpa [metaSub] using h

theorem complySubGo_sublist (needle l : List Char) :
    ∀ (fuel p : Nat), List.Sublist (complySubGo needle l fuel p) (l.drop p) := by
  intro fuel p
  induction fuel, p using complySubGo.induct needle l with
  | case1 p => simp [complySubGo]
  | case2 fuel p h1 => simp only [complySubGo, h1]; exact List.Sublist.refl _
  | case3 fuel p i0 h1 h2 => simp only [complySubGo, h1, h2]; exact List.Sublist.refl _
  | case4 fuel p i0 h1 j h2 h3 =>
    simp only [complySubGo, h1, h2, h3]
    exact List.Sublist.refl _
  | case5 fuel p i0 h1 j h2 k h3 ih =>
    simp only [complySubGo, h1, h2, h3]
    have hp : p ≤ i0 := findIdxFrom_le h1
    have hij : i0 ≤ j := findIdxFrom_le h2
    have hjk : j + needle.length ≤ k := findIdxFrom_le h3
    have hik : i0 ≤ k + 1 := by omega
    have hmain : List.Sublist (complySubGo needle l fuel (k + 1))
        ((l.drop p).drop (i0 - p)) := by
      rw [List.drop_drop]
      rw [show p + (i0 - p) = i0 by omega]
      exact ih.trans (drop_sublist_drop hik)
    have happ := hmain.append_left ((l.drop p).take (i0 - p))
    rw [List.take_append_drop] at happ
    exact happ

theorem complySub_sublist (needle l : List Char) : List.Sublist (complySub needle l) l := by
  have h := complySubGo_sublist needle l l.length 0
  simpa [complySub] using h

theorem dotsAt_le {l : List Char} {i q : Nat} (h : dotsAt l i = some q) : i ≤ q := by
  simp only [dotsAt] at h
  split at h
  · split at h
    · exact absurd h (by simp)
    · simp only [Option.some.injEq] at h
      omega
  · exact absurd h (by simp)

theorem dotsSubGo_sublist (l : List Char) :
    ∀ (fuel p : Nat), List.Sublist (dotsSubGo l fuel p) (l.drop p) := by
  intro fuel p
  induction fuel, p using dotsSubGo.induct l with
  | case1 p => simp [dotsSubGo]
  | case2 fuel p h1 => simp only [dotsSubGo, h1]; exact List.Sublist.refl _
  | case3 fuel p i h1 h2 => simp only [dotsSubGo, h1, h2]; exact List.Sublist.refl _
  | case4 fuel p i h1 q h2 ih =>
    simp only [dotsSubGo, h1, h2]
    have hp : p ≤ i := findIdxFrom_le h1
    have hiq : i ≤ q := dotsAt_le h2
    have hmain : List.Sublist (dotsSubGo l fuel (q + 1)) ((l.drop p).drop (i - p)) := by
      rw [List.drop_drop]
      rw [show p + (i - p) = i by omega]
      exact ih.trans (drop_sublist_drop (by omega))
    have happ := hmain.append_left ((l.drop p).take (i - p))
    rw [List.take_append_drop] at happ
    exact happ

theorem dotsSub_sublist (l : List Char) : List.Sublist (dotsSub l) l := by
  have h := dotsSubGo_sublist l l.length 0
  simpa [dotsSub] using h

theorem collapseF_sublist : ∀ (fuel : Nat) (l : List Char),
    List.Sublist (collapseF fuel l) l := by
  intro fuel l
  induction fuel, l using collapseF.induct with
  | case1 l => simp [collapseF]
  | case2 fuel => simp [collapseF]
  | case3 fuel rest ih =>
    rw [collapseF]
    have h : List.Sublist (collapseF fuel (rest.dropWhile (fun c => c = '\n'))) rest :=
      ih.trans (List.dropWhile_sublist _)
    exact ((h.cons '\n').cons_cons '\n').cons_cons '\n'
  | case4 fuel c rest h1 ih =>
    rw [collapseF]
    · exact ih.cons_cons c
    · exact h1

theorem collapseNewlines_sublist (l : List Char) :
    List.Sublist (collapseNewlines l) l :=
  collapseF_sublist l.length l

theorem pyRstrip_sublist (l : List Char) : List.Sublist (pyRstrip l) l := by
  have h : List.Sublist (l.reverse.dropWhile isPySpace) l.reverse :=
    List.dropWhile_sublist _
  have h2 := List.reverse_sublist.mpr h
  rwa [List.reverse_reverse] at h2

theorem pyStrip_sublist (l : List Char) : List.Sublist (pyStrip l) l :=
  (List.dropWhile_sublist _).trans (pyRstrip_sublist l)

theorem stripTokens_sublist (l : List Char) : List.Sublist (stripTokens l) l :=
  stripTokensF_sublist l.length l

theorem clean_response_sublist (l : List Char) :
    List.Sublist (clean_response l) l := by
  rw [clean_response]
  by_cases he : l.isEmpty
  · simp [he]
  · simp only [he, if_false, Bool.false_eq_true]
    exact (pyStrip_sublist _).trans ((collapseNewlines_sublist _).trans
      ((dotsSub_sublist _).trans ((complySub_sublist _ _).trans
        ((metaSub_sublist _ _).trans ((metaSub_sublist _ _).trans
          ((metaSub_sublist _ _).trans ((metaSub_sublist _ _).trans
            (stripTokens_sublist l))))))))

theorem pyRstrip_length_le (l : List Char) : (pyRstrip l).length ≤ l.length :=
  (pyRstrip_sublist l).length_le

theorem pyLstrip_length_le (l : List Char) : (pyLstrip l).length ≤ l.length :=
  (List.dropWhile_sublist _).length_le

theorem pyLstrip_replicate_a (n : Nat) :
    pyLstrip (List.replicate n 'a') = List.replicate n 'a' := by
  rw [pyLstrip, List.dropWhile_replicate]
  simp [isPySpace]

theorem pyRstrip_replicate_a (n : Nat) :
    pyRstrip (List.replicate n 'a') = List.replicate n 'a' := by
  rw [pyRstrip, List.reverse_replicate, List.dropWhile_replicate]
  simp [isPySpace]

theorem pyStrip_replicate_a (n : Nat) :
    pyStrip (List.replicate n 'a') = List.replicate n 'a' := by
  rw [pyStrip, pyRstrip_replicate_a, pyLstrip_replicate_a]

theorem splitNl_replicate_a (n : Nat) :
    splitNl (List.replicate n 'a') = [List.replicate n 'a'] := by
  induction n with
  | zero => rfl
  | succ m ih =>
    rw [List.replicate_succ, splitNl]
    · rw [ih]
    · decide

theorem splitNl_replicate_a_nl (n : Nat) (ys : List Char) :
    splitNl (List.replicate n 'a' ++ '\n' :: ys) =
      List.replicate n 'a' :: splitNl ys := by
  induction n with
  | zero => rfl
  | succ m ih =>
    rw [List.replicate_succ, List.cons_append, splitNl]
    · rw [ih]
    · decide

theorem clean_lines_replicate_a (n : Nat) (hn : n ≠ 0) :
    clean_lines (List.replicate n 'a') = List.replicate n 'a' := by
  rw [clean_lines, splitNl_replicate_a]
  have hne : (List.replicate n 'a').isEmpty = false := by
    cases n with
    | zero => exact absurd rfl hn
    | succ m => simp [List.replicate_succ]
  simp [pyStrip_replicate_a, List.filter_cons, hne, List.intercalate]

theorem separator_length : (separatorFor 3000 2000).data.length = 72 := by decide

theorem pyRstrip_append_nl (xs : List Char) : pyRstrip (xs ++ ['\n']) = pyRstrip xs := by
  rw [pyRstrip, pyRstrip, List.reverse_append]
  rfl

theorem truncate_content_eq {cleaned : List Char} (h : 5000 < cleaned.length) :
    truncate_content cleaned =
      pyRstrip (cleaned.take 3000) ++ (separatorFor 3000 2000).data ++
        pyLstrip (cleaned.drop (cleaned.length - 2000)) := by
  rw [truncate_content, if_pos (show max_content_length < cleaned.length from h)]
  rfl

theorem truncate_replicate_8000 :
    truncate_content (List.replicate 8000 'a') =
      List.replicate 3000 'a' ++ (separatorFor 3000 2000).data ++
        List.replicate 2000 'a' := by
  rw [truncate_content_eq (by rw [List.length_replicate]; omega)]
  rw [List.length_replicate, List.take_replicate, List.drop_replicate]
  rw [show (3000 ⊓ 8000 : Nat) = 3000 by omega,
    show (8000 - (8000 - 2000) : Nat) = 2000 by omega]
  rw [pyRstrip_replicate_a, pyLstrip_replicate_a]

theorem ex4_take_3000 :
    (List.replicate 2999 'a' ++ '\n' :: List.replicate 5000 'a').take 3000 =
      List.replicate 2999 'a' ++ ['\n'] := by
  rw [List.take_append_eq_append_take, List.take_replicate, List.length_replicate]
  rw [show (3000 ⊓ 2999 : Nat) = 2999 by omega, show (3000 - 2999 : Nat) = 1 by omega]
  rw [List.take_succ_cons, List.take_zero]

theorem ex4_drop_6000 :
    (List.replicate 2999 'a' ++ '\n' :: List.replicate 5000 'a').drop 6000 =
      List.replicate 2000 'a' := by
  rw [List.drop_append_eq_append_drop, List.drop_replicate, List.length_replicate]
  rw [show (2999 - 6000 : Nat) = 0 by omega, show (6000 - 2999 : Nat) = 3000 + 1 by omega]
  rw [List.replicate_zero, List.nil_append, List.drop_succ_cons, List.drop_replicate]

theorem ex4_length :
    (List.replicate 2999 'a' ++ '\n' :: List.replicate 5000 'a').length = 8000 := by
  rw [List.length_append, List.length_cons, List.length_replicate, List.length_replicate]

theorem intercalate_pair (s a b : List Char) :
    List.intercalate s [a, b] = a ++ s ++ b := by
  simp [List.intercalate]

theorem isEmpty_false_of_ne_nil {l : List Char} (h : l ≠ []) : l.isEmpty = false := by
  cases l with
  | nil => exact absurd rfl h
  | cons a as => rfl

theorem replicate_ne_nil_c (n : Nat) (c : Char) (hn : n ≠ 0) :
    List.replicate n c ≠ [] := by
  cases n with
  | zero => exact absurd rfl hn
  | succ m => rw [List.replicate_succ]; exact List.cons_ne_nil _ _

theorem clean_lines_ex4 :
    clean_lines (List.replicate 2999 'a' ++ '\n' :: List.replicate 5000 'a') =
      List.replicate 2999 'a' ++ '\n' :: List.replicate 5000 'a' := by
  rw [clean_lines, splitNl_replicate_a_nl, splitNl_replicate_a]
  rw [List.map_cons, List.map_cons, List.map_nil, pyStrip_replicate_a, pyStrip_replicate_a]
  rw [List.filter_cons, List.filter_cons, List.filter_nil]
  rw [if_pos (by rw [isEmpty_false_of_ne_nil (replicate_ne_nil_c 2999 'a' (by omega))]; rfl)]
  rw [if_pos (by rw [isEmpty_false_of_ne_nil (replicate_ne_nil_c 5000 'a' (by omega))]; rfl)]
  rw [intercalate_pair, List.append_assoc, List.singleton_append]

theorem truncate_ex4 :
    truncate_content (List.replicate 2999 'a' ++ '\n' :: List.replicate 5000 'a') =
      List.replicate 2999 'a' ++ (separatorFor 3000 2000).data ++
        List.replicate 2000 'a' := by
  rw [truncate_content_eq (by rw [ex4_length]; omega)]
  rw [ex4_length, show (8000 - 2000 : Nat) = 6000 by omega]
  rw [ex4_take_3000, ex4_drop_6000]
  rw [pyRstrip_append_nl, pyRstrip_replicate_a, pyLstrip_replicate_a]

/-- The keys of `SYSTEM_PROMPTS`: the valid operating modes. -/
def allowedModes : List String := ["conversation", "search", "scrape"]

theorem lookup_isSome_mem {m : String}
    (h : (SYSTEM_PROMPTS.lookup m).isSome = true) : m ∈ allowedModes := by
  by_cases h1 : m = "conversation"
  · simp [allowedModes, h1]
  · by_cases h2 : m = "search"
    · simp [allowedModes, h2]
    · by_cases h3 : m = "scrape"
      · simp [allowedModes, h3]
      · exfalso
        have e1 : (m == "conversation") = false := by simp [h1]
        have e2 : (m == "search") = false := by simp [h2]
        have e3 : (m == "scrape") = false := by simp [h3]
        simp only [SYSTEM_PROMPTS, List.lookup, e1, e2, e3] at h
        simp at h

theorem foldl_set_mode_mem (ms : List String) :
    ∀ st : AgentState, st.current_mode ∈ allowedModes →
      (ms.foldl set_mode st).current_mode ∈ allowedModes := by
  induction ms with
  | nil => intro st h; simpa using h
  | cons m rest ih =>
    intro st h
    rw [List.foldl_cons]
    apply ih
    rw [set_mode]
    by_cases hm : (SYSTEM_PROMPTS.lookup m).isSome = true
    · rw [if_pos hm]
      exact lookup_isSome_mem hm
    · rw [if_neg hm]
      exact h

theorem get_system_prompt_ne_of_mem {st : AgentState}
    (h : st.current_mode ∈ allowedModes) : get_system_prompt st ≠ "" := by
  rw [get_system_prompt]
  simp only [allowedModes, List.mem_cons, List.not_mem_nil, or_false] at h
  rcases h with h | h | h <;> rw [h] <;> decide

/-! ## Concrete instances used by counterexamples and witnesses -/

/-- A generation capability that always streams one chunk and never fails. -/
def gOk : GenBehavior := { chunks := fun _ => ["All good."], failure := fun _ => none }

/-- A generation capability that raises `boom` before emitting any chunk. -/
def gBoom : GenBehavior := { chunks := fun _ => [], failure := fun _ => some "boom" }

/-- A freshly loaded agent with empty history in conversation mode. -/
def stReady : AgentState :=
  { llmLoaded := true, conversation_history := [], current_mode := "conversation" }

/-- A search backend that always returns one result. -/
def backendStub : String → Except String (List SearchResult) :=
  fun _ => Except.ok [{ title := "t", href := "u", body := "b" }]

/-- What a Python caller iterating the generator object returned by `chat`
receives: the yielded chunks.  A `return` value inside the generator (the
`StopIteration` payload, `ChatOutcome.stopValue`) is not part of it. -/
def callerChunks (o : ChatOutcome) : List String := o.yielded

/-! ## Claim theorems -/

/-- C1, counterexample.  The claim says the retained history never exceeds a
configured maximum and that `append` evicts from the front.  In the code
(src/src/agent.py lines 153-156 and 181-184) `conversation_history.append`
is a plain Python list append and nothing ever trims the list: after seven
successful streaming chat calls on a fresh loaded agent the history holds
all 14 turns — beyond the cap of 12 the spec quotes — and the oldest turn is
still at the front. -/
theorem C1_counterexample :
    (runChats gOk stReady ["m1", "m2", "m3", "m4", "m5", "m6", "m7"]).conversation_history.length = 14 ∧
    12 < (runChats gOk stReady ["m1", "m2", "m3", "m4", "m5", "m6", "m7"]).conversation_history.length ∧
    (runChats gOk stReady ["m1", "m2", "m3", "m4", "m5", "m6", "m7"]).conversation_history.head? =
      some ⟨Role.user, "m1"⟩ := by
  decide

/-- C1 (amended).  The conversation state is never evicted: every `chat`
call preserves the existing history as a prefix of the new history (the user
turn and, on success, the cleaned assistant turn are appended at the back);
the fixed bound applies only to prompt assembly, which uses the last six
retained messages (`conversation_history[-6:]`). -/
theorem C1_no_eviction (g : GenBehavior) (st : AgentState) (msg : String)
    (stream : Bool) :
    st.conversation_history <+:
      (chatRun g st msg stream).finalState.conversation_history := by
  rw [chatRun]
  split
  · exact List.prefix_refl _
  · split <;>
      cases hf : g.failure (buildPrompt st.conversation_history msg) <;>
        simp only [hf] <;>
        first
          | exact List.prefix_append _ _
          | exact (List.prefix_append _ _).trans (List.prefix_append _ _)

/-- C2, counterexample.  The claim says a generation failure leaves the
history equal to the starting history H, with not even the user turn
appended.  In the code the user turn is appended *before* the `try:` block
(src/src/agent.py lines 153-156), so after a failing streaming call on a
fresh loaded agent (H = []) the history is `[user "hi"]`, not `[]`, even
though a single error chunk is correctly emitted. -/
theorem C2_counterexample :
    (chatRun gBoom stReady "hi" true).finalState.conversation_history ≠
      stReady.conversation_history ∧
    (chatRun gBoom stReady "hi" true).finalState.conversation_history =
      [⟨Role.user, "hi"⟩] ∧
    (chatRun gBoom stReady "hi" true).yielded =
      ["Error generating response: boom"] := by
  decide

/-- C2 (amended).  When the generation capability raises during `chat`, the
caller still receives exactly one descriptive error chunk (streaming; after
any chunks already relayed) or one error result in the `StopIteration`
payload (non-streaming), and no assistant turn — partial or otherwise — is
appended; but the history does not stay equal to H: the user turn was
already appended before the `try:` block, so the final history is
`H ++ [user turn]`. -/
theorem C2_failure_appends_user_only (g : GenBehavior) (st : AgentState)
    (msg e : String) (stream : Bool) (hl : st.llmLoaded = true)
    (hf : g.failure (buildPrompt st.conversation_history msg) = some e) :
    (chatRun g st msg stream).finalState.conversation_history =
      st.conversation_history ++ [⟨Role.user, msg⟩] ∧
    (chatRun g st msg true).yielded =
      g.chunks (buildPrompt st.conversation_history msg) ++
        ["Error generating response: " ++ e] ∧
    (chatRun g st msg true).stopValue = none ∧
    (chatRun g st msg false).yielded = [] ∧
    (chatRun g st msg false).stopValue =
      some ("Error generating response: " ++ e) := by
  refine ⟨?_, ?_, ?_, ?_, ?_⟩ <;>
    cases stream <;> simp [chatRun, hl, hf]

/-- C2 witness: the amended statement at a concrete failing run. -/
theorem C2_failure_appends_user_only_witness :
    (chatRun gBoom stReady "hi" true).finalState.conversation_history =
      stReady.conversation_history ++ [⟨Role.user, "hi"⟩] ∧
    (chatRun gBoom stReady "hi" true).yielded =
      gBoom.chunks (buildPrompt stReady.conversation_history "hi") ++
        ["Error generating response: " ++ "boom"] ∧
    (chatRun gBoom stReady "hi" true).stopValue = none ∧
    (chatRun gBoom stReady "hi" false).yielded = [] ∧
    (chatRun gBoom stReady "hi" false).stopValue =
      some ("Error generating response: " ++ "boom") :=
  C2_failure_appends_user_only gBoom stReady "hi" "boom" true rfl rfl

/-- C3, counterexample.  The claim says the truncated content has aggregate
size at most the ceiling `max_content_length = 5000`.  For a cleaned page
text of 8000 `a`s (a fixed point of the line clean-up, so a reachable
cleaned text), the code keeps 3000 head chars and 2000 tail chars *and*
inserts a 72-character separator marker between them, so the returned
content is 5072 characters — above the ceiling. -/
theorem C3_counterexample :
    clean_lines (List.replicate 8000 'a') = List.replicate 8000 'a' ∧
    max_content_length < (List.replicate 8000 'a').length ∧
    max_content_length < (truncate_content (List.replicate 8000 'a')).length := by
  refine ⟨clean_lines_replicate_a 8000 (by omega), ?_, ?_⟩
  · rw [List.length_replicate]
    simp only [max_content_length]
    omega
  · rw [truncate_replicate_8000, List.length_append, List.length_append,
      List.length_replicate, List.length_replicate, separator_length]
    simp only [max_content_length]
    omega

/-- C3 (amended).  The truncated content can exceed the ceiling only by the
inserted separator marker: for every cleaned text, the output of the
adapter-level truncation has length at most
`max_content_length + (separator length)` — the head is at most 3000 chars
and the tail at most 2000, and only the 72-char marker is added on top. -/
theorem C3_truncation_bound (cleaned : List Char) :
    (truncate_content cleaned).length ≤
      max_content_length + (separatorFor 3000 2000).data.length := by
  by_cases h : 5000 < cleaned.length
  · rw [truncate_content_eq h, List.length_append, List.length_append]
    have h1 := pyRstrip_length_le (cleaned.take 3000)
    have h2 := pyLstrip_length_le (cleaned.drop (cleaned.length - 2000))
    have h3 : (cleaned.take 3000).length ≤ 3000 := by
      rw [List.length_take]
      omega
    have h4 : (cleaned.drop (cleaned.length - 2000)).length ≤ 2000 := by
      rw [List.length_drop]
      omega
    simp only [max_content_length]
    omega
  · rw [truncate_content,
      if_neg (show ¬ max_content_length < cleaned.length by
        simp only [max_content_length]; omega)]
    simp only [max_content_length]
    omega

/-- C4, counterexample.  The claim says that for *every* cleaned 8000-char
text the output is exactly the first 3000 chars, the marker, and the last
2000 chars, head and tail preserved character for character.  The code
applies `rstrip()` to the head slice and `lstrip()` to the tail slice
(src/src/scraper.py lines 127-128); on a cleaned text whose 3000th
character is a newline (2999 `a`s, a newline, 5000 `a`s — a fixed point of
the line clean-up) the head loses that newline, so the output differs from
the claimed shape. -/
theorem C4_counterexample :
    clean_lines (List.replicate 2999 'a' ++ '\n' :: List.replicate 5000 'a') =
      List.replicate 2999 'a' ++ '\n' :: List.replicate 5000 'a' ∧
    (List.replicate 2999 'a' ++ '\n' :: List.replicate 5000 'a').length = 8000 ∧
    truncate_content (List.replicate 2999 'a' ++ '\n' :: List.replicate 5000 'a') ≠
      (List.replicate 2999 'a' ++ '\n' :: List.replicate 5000 'a').take 3000 ++
        (separatorFor 3000 2000).data ++
        (List.replicate 2999 'a' ++ '\n' :: List.replicate 5000 'a').drop 6000 := by
  refine ⟨clean_lines_ex4, ex4_length, ?_⟩
  rw [truncate_ex4, ex4_take_3000, ex4_drop_6000]
  intro h
  have hlen := congrArg List.length h
  simp only [List.length_append, List.length_replicate, List.length_cons,
    separator_length] at hlen
  omega

/-- C4 (amended).  For a cleaned 8000-char text the truncation output is
`rstrip(first 3000 chars) ++ separator ++ lstrip(last 2000 chars)`; in
particular, whenever the head slice has no trailing whitespace and the tail
slice no leading whitespace, head and tail are preserved exactly as the
claim states. -/
theorem C4_head_tail (cleaned : List Char) (h8 : cleaned.length = 8000)
    (hH : pyRstrip (cleaned.take 3000) = cleaned.take 3000)
    (hT : pyLstrip (cleaned.drop 6000) = cleaned.drop 6000) :
    truncate_content cleaned =
      cleaned.take 3000 ++ (separatorFor 3000 2000).data ++ cleaned.drop 6000 := by
  rw [truncate_content_eq (by omega)]
  rw [h8, show (8000 - 2000 : Nat) = 6000 by omega, hH, hT]

/-- C4 witness: the amended statement at the all-`a` 8000-char text. -/
theorem C4_head_tail_witness :
    truncate_content (List.replicate 8000 'a') =
      (List.replicate 8000 'a').take 3000 ++ (separatorFor 3000 2000).data ++
        (List.replicate 8000 'a').drop 6000 :=
  C4_head_tail (List.replicate 8000 'a') (List.length_replicate 8000 'a')
    (by rw [List.take_replicate]; exact pyRstrip_replicate_a _)
    (by rw [List.drop_replicate]; exact pyLstrip_replicate_a _)

/-- C5, counterexample.  The sanitizer is not idempotent: the special-token
pass is a single left-to-right `re.sub`, and deleting two tokens from
`<<|x|>|end<|x|>|>` splices the remaining characters into the new token
`<|end|>`, which only a second application removes (yielding the empty
text). -/
theorem C5_counterexample :
    clean_response (clean_response (("<<|x|>|end<|x|>|>").data)) ≠
      clean_response (("<<|x|>|end<|x|>|>").data) := by
  decide

/-- C5 (amended).  The sanitizer is idempotent exactly on the inputs whose
first output is already fully clean: whenever every cleaning stage (token
removal, the six reasoning patterns, newline collapsing, stripping) leaves
`clean_response x` unchanged, a second application is the identity.  In
general it is not: a first pass can splice a new control marker out of the
deleted text's surroundings. -/
theorem C5_idempotent_on_clean (x : List Char)
    (h1 : stripTokens (clean_response x) = clean_response x)
    (h2 : metaSub needle1 (clean_response x) = clean_response x)
    (h3 : metaSub needle2 (clean_response x) = clean_response x)
    (h4 : metaSub needle3 (clean_response x) = clean_response x)
    (h5 : metaSub needle4 (clean_response x) = clean_response x)
    (h6 : complySub needle5 (clean_response x) = clean_response x)
    (h7 : dotsSub (clean_response x) = clean_response x)
    (h8 : collapseNewlines (clean_response x) = clean_response x)
    (h9 : pyStrip (clean_response x) = clean_response x) :
    clean_response (clean_response x) = clean_response x := by
  by_cases he : (clean_response x).isEmpty = true
  · rw [clean_response, if_pos he]
  · rw [clean_response, if_neg he, h1, h2, h3, h4, h5, h6, h7, h8, h9]

/-- C5 witness: a concrete input on which every stage fixes the first
output, so sanitization is idempotent there. -/
theorem C5_idempotent_on_clean_witness :
    clean_response (clean_response (("Result: fine").data)) =
      clean_response (("Result: fine").data) :=
  C5_idempotent_on_clean (("Result: fine").data) (by decide) (by decide)
    (by decide) (by decide) (by decide) (by decide) (by decide) (by decide)
    (by decide)

/-- C6, counterexample.  The claim says a reasoning-pattern application
never removes text before the pattern's match point.  Each pattern begins
with `^.*?` under `re.DOTALL`, so the match reaches back to the start of
the scan region: on `Hello there.\nWe need to comply.\nOk fine.` the
`We need to` pattern deletes everything from the very beginning, including
the line `Hello there.` that precedes the reasoning phrase, leaving only
`Ok fine.`. -/
theorem C6_counterexample :
    clean_response (("Hello there.\nWe need to comply.\nOk fine.").data) =
      ("Ok fine.").data ∧
    ("Hello there.").data <:+:
      ("Hello there.\nWe need to comply.\nOk fine.").data ∧
    ¬ (("Hello").data <:+:
        clean_response (("Hello there.\nWe need to comply.\nOk fine.").data)) := by
  decide

/-- C6 (amended).  Reasoning-pattern removal (and every other sanitizer
stage) only deletes characters: each match removes one contiguous span that
runs from the previous match end or the text start — the `^.*?` prefix
under `DOTALL` can reach back before the trigger phrase — up to the pattern
boundary, so the output of each pattern pass and of the whole sanitizer is
a subsequence of its input, never a reordering or insertion. -/
theorem C6_only_deletes (needle l : List Char) :
    List.Sublist (metaSub needle l) l ∧ List.Sublist (clean_response l) l :=
  ⟨metaSub_sublist needle l, clean_response_sublist l⟩

/-- C7, counterexample.  The claim says sanitized output contains no
substring of the form `<|...|>`.  The token pass is a single sweep, and on
`<<|a|>|sys<|a|>|>` removing the two `<|a|>` tokens splices the remaining
characters into `<|sys|>`, which survives into the output. -/
theorem C7_counterexample :
    containsMarker (("<<|a|>|sys<|a|>|>").data) = true ∧
    containsMarker (clean_response (("<<|a|>|sys<|a|>|>").data)) = true := by
  decide

/-- C7 (amended).  The sanitizer removes every control marker present in
the input in one left-to-right pass — on the claim's own scenario
`<|system|>hi<|end|>` the output is exactly `hi` with no marker left — but
a pass can splice a new marker out of the deletions' surroundings, so
marker-freedom of the output is not guaranteed for every input. -/
theorem C7_scenario_strips_markers :
    cleanResponseStr "<|system|>hi<|end|>" = "hi" ∧
    containsMarker ((cleanResponseStr "<|system|>hi<|end|>").data) = false := by
  decide

/-- C8: because the body of `AIAgent.chat` contains `yield`, a call with
`stream=False` returns a generator object, not the sanitized string its
docstring promises ("complete string if stream=False").  Running that
generator to exhaustion yields no chunks at all; the sanitized text is only
the `StopIteration` payload of the final `return`, which an ordinary caller
iterating the result never sees — even though the cleaned turn *is*
appended to the history.  This evaluates the embedded generator semantics
at a concrete successful non-streaming call. -/
theorem C8_nonstream_returns_generator :
    callerChunks (chatRun gOk stReady "hi" false) = [] ∧
    (chatRun gOk stReady "hi" false).stopValue = some "All good." ∧
    (chatRun gOk stReady "hi" false).finalState.conversation_history =
      [⟨Role.user, "hi"⟩, ⟨Role.assistant, "All good."⟩] := by
  decide

/-- C9: an empty search query — or any query that strips to empty — makes
`SearchEngine.search` return the failure message
`Search query cannot be empty` before the backend is touched, and the
search session flow (`search_and_process`) never invokes the generation
capability for such a query. -/
theorem C9_empty_query (backend : String → Except String (List SearchResult))
    (g : GenBehavior) (st : AgentState) (query : String)
    (hq : pyStripStr query = "") :
    SearchEngine_search backend query =
      Except.error "Search query cannot be empty" ∧
    (search_and_process g backend st query).genCalled = false := by
  have he : (pyStripStr query).isEmpty = true := by rw [hq]; rfl
  constructor
  · simp [SearchEngine_search, he]
  · by_cases hl : st.llmLoaded
    · simp [search_and_process, hl, he]
    · simp [search_and_process, hl]

/-- C9 witness: the statement at the concrete empty query. -/
theorem C9_empty_query_witness :
    SearchEngine_search backendStub "" =
      Except.error "Search query cannot be empty" ∧
    (search_and_process gOk backendStub stReady "").genCalled = false :=
  C9_empty_query backendStub gOk stReady "" (by rfl)

/-- C10: the current mode is always valid.  `current_mode` starts as
`conversation`; `set_mode` changes it only to keys of `SYSTEM_PROMPTS`, so
after any sequence of `set_mode` calls the mode is one of `conversation`,
`search`, `scrape`, and `get_system_prompt` never falls back to its empty
default. -/
theorem C10_mode_invariant (ms : List String) :
    initAgent.current_mode = "conversation" ∧
    (ms.foldl set_mode initAgent).current_mode ∈ allowedModes ∧
    get_system_prompt (ms.foldl set_mode initAgent) ≠ "" := by
  have hmem := foldl_set_mode_mem ms initAgent (by simp [initAgent, allowedModes])
  exact ⟨rfl, hmem, get_system_prompt_ne_of_mem hmem⟩
